import Mathlib

/-!
Verification development for the SQL sync-script pipeline of
`vs2022_schema_compare.py`.

The pipeline's pure text transformations are embedded shallowly: text is a
`List Char`, and every Python `re` operation of the source is hand-compiled
into an executable scanner with the same matching semantics (leftmost match,
lazy/greedy backtracking, case folding, `\s`/`\w` classes, non-overlapping
global substitution).  The five stages modelled are `clean_sql_content`,
`extract_sql_objects`, `generate_filtered_output`, `convert_sql_to_drop_create`
and `add_print_statements` (the last one as a text-to-text function; the
source reads and writes the same file around the pure line transformation).
-/

set_option maxRecDepth 10000

namespace VS2022

/-- Text is modelled as a list of characters. -/
abbrev Str := List Char

/-- Coercion from string literals used to transcribe the source's literals. -/
def str (s : String) : Str := s.data

/-- Python's `\s` class over the ASCII repertoire handled by the script. -/
def isPySpace (c : Char) : Bool :=
  c == ' ' || c == '\t' || c == '\n' || c == '\r' || c == '\x0b' || c == '\x0c'

/-- Python's `\w` class over the ASCII repertoire handled by the script. -/
def isWordChar (c : Char) : Bool :=
  c.isAlpha || c.isDigit || c == '_'

/-- Case-insensitive character comparison (ASCII case folding, as `re.IGNORECASE`). -/
def ciChar (a b : Char) : Bool := a.toLower == b.toLower

/-- Case-insensitive prefix test, used for `(?i)` literal fragments. -/
def ciStarts : Str → Str → Bool
  | [], _ => true
  | _ :: _, [] => false
  | p :: ps, c :: cs => ciChar p c && ciStarts ps cs

/-- Python's `str.upper` (ASCII). -/
def upperStr (s : Str) : Str := s.map Char.toUpper

/-- Python's `str.strip()` (strips `\s` characters at both ends). -/
def pyStrip (s : Str) : Str :=
  ((s.dropWhile isPySpace).reverse.dropWhile isPySpace).reverse

/-- Python's `str.replace(pat, rep)`: replace every non-overlapping occurrence,
left to right, case-sensitively.  Fuel-driven; callers pass the text length. -/
def pyReplaceF (pat rep : Str) : Nat → Str → Str
  | 0, s => s
  | _ + 1, [] => []
  | f + 1, c :: t =>
    if pat.isPrefixOf (c :: t) && !pat.isEmpty then
      rep ++ pyReplaceF pat rep f ((c :: t).drop pat.length)
    else
      c :: pyReplaceF pat rep f t

/-- Python's `str.replace` at the standard fuel. -/
def pyReplace (s pat rep : Str) : Str := pyReplaceF pat rep s.length s

/-- Number of occurrences of `pat` in `s` (counted at every start position). -/
def countSubstr : Str → Str → Nat
  | s, pat =>
    (if pat.isPrefixOf s then 1 else 0) +
      match s with
      | [] => 0
      | _ :: t => countSubstr t pat

/-- Does `pat` occur anywhere in `s`? -/
def containsSubstr : Str → Str → Bool
  | s, pat =>
    pat.isPrefixOf s ||
      match s with
      | [] => false
      | _ :: t => containsSubstr t pat

/-- Remainder of `s` strictly after the first occurrence of `pat`, if any. -/
def afterSubstr : Str → Str → Option Str
  | s, pat =>
    if pat.isPrefixOf s then some (s.drop pat.length)
    else
      match s with
      | [] => none
      | _ :: t => afterSubstr t pat

/-- Do the given fragments all occur in `s`, in the given order, each strictly
after the end of the previous one? -/
def containsInOrder : Str → List Str → Bool
  | _, [] => true
  | s, p :: ps =>
    match afterSubstr s p with
    | some r => containsInOrder r ps
    | none => false

/-- Normalized comparison key for qualified names: case-insensitive with
brackets stripped (the spec's identity key; the source never computes it,
which is what claim C1 turns on). -/
def normKey (s : Str) : Str :=
  (s.filter (fun c => c != '[' && c != ']')).map Char.toLower

/-! ## Stage 1: `clean_sql_content` -/

/-- Suffix of `s` strictly after the last `'\n'` of `s`, if `s` contains one.
Used for greedy `\s*` runs that must end at a final literal `\n`. -/
def afterLastNl : Str → Option Str
  | [] => none
  | '\n' :: t =>
    some (match afterLastNl t with
          | some r => r
          | none => t)
  | _ :: t => afterLastNl t

/-- Match `\s*\n` greedily at the head of `t`: consume the maximal whitespace
run up to and including its last newline; fails when the whitespace prefix
contains no newline. -/
def wsThenLastNl (t : Str) : Option Str :=
  let run := t.takeWhile isPySpace
  match afterLastNl run with
  | some r => some (r ++ t.drop run.length)
  | none => none

/-- Tail of the announcement-print pattern after a candidate closing quote:
`\s*;\s*GO\s*` with a case-sensitive `GO` and a final greedy whitespace run. -/
def printGoQuoteTail (t : Str) : Option Str :=
  match (t.dropWhile isPySpace : Str) with
  | ';' :: t2 =>
    match (t2.dropWhile isPySpace : Str) with
    | 'G' :: 'O' :: t4 => some (t4.dropWhile isPySpace)
    | _ => none
  | _ => none

/-- Lazy `.*?'` search for `PRINT N\'.*?\'\s*;\s*GO\s*`: `.` cannot cross a
newline, and on a failing tail the engine extends past the quote to the next
one on the same line. -/
def printGoFindQuote : Str → Option Str
  | [] => none
  | '\n' :: _ => none
  | '\'' :: t =>
    match printGoQuoteTail t with
    | some r => some r
    | none => printGoFindQuote t
  | _ :: t => printGoFindQuote t

/-- Global substitution `re.sub(r"PRINT N\'.*?\'\s*;\s*GO\s*", '', content)`:
first clean-up of `clean_sql_content`. -/
def subPrintGoF : Nat → Str → Str
  | 0, s => s
  | _ + 1, [] => []
  | f + 1, c :: t =>
    if (str "PRINT N'").isPrefixOf (c :: t) then
      match printGoFindQuote ((c :: t).drop 8) with
      | some r => subPrintGoF f r
      | none => c :: subPrintGoF f t
    else
      c :: subPrintGoF f t

/-- Lazy `.*?\]?\s*\n` tail of the header-comment pattern: expand `.` (never
over a newline) until an optional `]` followed by `\s*` and a final newline
matches. -/
def hdrScan : Str → Option Str
  | [] => none
  | c :: t =>
    let s1 : Str := if c == ']' then t else c :: t
    match wsThenLastNl s1 with
    | some r => some r
    | none => if c == '\n' then none else hdrScan t

/-- Match of `--\s*(Alter|Create)\s+(Procedure|Function):\s*\[?.*?\]?\s*\n`
(case-sensitive) at a position right after `--`; returns the remainder. -/
def hdrMatch (t : Str) : Option Str :=
  let t1 := t.dropWhile isPySpace
  let t2? : Option Str :=
    if (str "Alter").isPrefixOf t1 then some (t1.drop 5)
    else if (str "Create").isPrefixOf t1 then some (t1.drop 6)
    else none
  match t2? with
  | none => none
  | some t2 =>
    let run := t2.takeWhile isPySpace
    if run.isEmpty then none
    else
      let t3 := t2.drop run.length
      let t4? : Option Str :=
        if (str "Procedure").isPrefixOf t3 then some (t3.drop 9)
        else if (str "Function").isPrefixOf t3 then some (t3.drop 8)
        else none
      match t4? with
      | none => none
      | some t4 =>
        match t4 with
        | ':' :: t5 =>
          let t6 := t5.dropWhile isPySpace
          let t7 : Str := match t6 with
                          | '[' :: r => r
                          | _ => t6
          hdrScan t7
        | _ => none

/-- Global substitution removing generated object-header comments:
second clean-up of `clean_sql_content`. -/
def subHdrCommentF : Nat → Str → Str
  | 0, s => s
  | _ + 1, [] => []
  | f + 1, c :: t =>
    match c :: t with
    | '-' :: '-' :: t2 =>
      match hdrMatch t2 with
      | some r => subHdrCommentF f r
      | none => c :: subHdrCommentF f t
    | _ => c :: subHdrCommentF f t

/-- Global substitution `re.sub(r'--.*?$', '', content, flags=re.MULTILINE)`:
remove every `--` comment to end of line (exclusive of the newline). -/
def subLineCommentF : Nat → Str → Str
  | 0, s => s
  | _ + 1, [] => []
  | f + 1, c :: t =>
    match c :: t with
    | '-' :: '-' :: t2 => subLineCommentF f (t2.dropWhile (fun x => x != '\n'))
    | _ => c :: subLineCommentF f t

/-- Earliest `*/` terminator for the lazy block-comment body. -/
def findBlockEnd : Str → Option Str
  | [] => none
  | '*' :: '/' :: t => some t
  | _ :: t => findBlockEnd t

/-- Global substitution `re.sub(r'/\*.*?\*/', '', content, flags=re.DOTALL)`:
remove block comments; an unterminated `/*` is left in place (no match). -/
def subBlockCommentF : Nat → Str → Str
  | 0, s => s
  | _ + 1, [] => []
  | f + 1, c :: t =>
    match c :: t with
    | '/' :: '*' :: t2 =>
      match findBlockEnd t2 with
      | some r => subBlockCommentF f r
      | none => c :: subBlockCommentF f t
    | _ => c :: subBlockCommentF f t

/-- Global substitution `re.sub(r'\n\s*\n', '\n\n', content)`: collapse a
newline, a greedy whitespace run and a final newline into a blank line. -/
def subBlankLinesF : Nat → Str → Str
  | 0, s => s
  | _ + 1, [] => []
  | f + 1, c :: t =>
    if c == '\n' then
      match wsThenLastNl t with
      | some r => '\n' :: '\n' :: subBlankLinesF f r
      | none => c :: subBlankLinesF f t
    else
      c :: subBlankLinesF f t

/-- Blank-line collapsing at the standard fuel (also reused on extracted
object bodies, as in `extract_sql_objects`). -/
def subBlankLines (s : Str) : Str := subBlankLinesF s.length s

/-- Model of `clean_sql_content`: the five substitutions in source order. -/
def clean_sql_content (content : Str) : Str :=
  let c1 := subPrintGoF content.length content
  let c2 := subHdrCommentF c1.length c1
  let c3 := subLineCommentF c2.length c2
  let c4 := subBlockCommentF c3.length c3
  subBlankLines c4

/-! ## Stage 2: `extract_sql_objects` -/

/-- One extracted definition: the dict `{'name', 'action', 'body'}` of the
source (`action` is the lower-cased captured keyword). -/
structure SqlObj where
  name : Str
  action : Str
  body : Str
deriving DecidableEq

/-- One extracted drop: the dict `{'type', 'name', 'body'}` of the source. -/
structure DropObj where
  type : Str
  name : Str
  body : Str
deriving DecidableEq

/-- The `results` dict of `extract_sql_objects`. -/
structure ExtractedObjects where
  functions : List SqlObj
  procedures : List SqlObj
  drops : List DropObj
deriving DecidableEq

/-- The `(CREATE|ALTER)` capture (pattern order), returning the lower-cased
action (`match.group(2).lower()`) and the remainder. -/
def matchActionCI (u : Str) : Option (Str × Str) :=
  if ciStarts (str "CREATE") u then some (str "create", u.drop 6)
  else if ciStarts (str "ALTER") u then some (str "alter", u.drop 5)
  else none

/-- The `(FUNCTION|PROCEDURE)` capture (pattern order), returning the
lower-cased kind (`match.group(3).lower()`) and the remainder. -/
def matchKindCI (u : Str) : Option (Str × Str) :=
  if ciStarts (str "FUNCTION") u then some (str "function", u.drop 8)
  else if ciStarts (str "PROCEDURE") u then some (str "procedure", u.drop 9)
  else none

/-- Tail alternation `\s*(?:GO|$)` after `END`: the greedy whitespace run is
retried from longest to shortest, at each stop trying the case-insensitive
`GO` and then `$` (end of input, or just before a final newline). -/
def goDollarLoop (t : Str) : Nat → Option Str
  | 0 =>
    if ciStarts (str "GO") t then some (t.drop 2)
    else if t.isEmpty || t == ['\n'] then some t
    else none
  | k + 1 =>
    let u := t.drop (k + 1)
    if ciStarts (str "GO") u then some (u.drop 2)
    else if u.isEmpty || u == ['\n'] then some u
    else goDollarLoop t k

/-- Match `\s*(?:GO|$)` at the head of `t` (greedy `\s*`). -/
def goDollarTail (t : Str) : Option Str :=
  goDollarLoop t (t.takeWhile isPySpace).length

/-- Lazy `.*?END\s*(?:GO|$)` (DOTALL): earliest case-insensitive `END` whose
tail matches; on a tail failure the scan extends past this `END`. -/
def findEndGo : Str → Option Str
  | [] => none
  | c :: t =>
    if ciStarts (str "END") (c :: t) then
      match goDollarTail ((c :: t).drop 3) with
      | some r => some r
      | none => findEndGo t
    else findEndGo t

/-- Second branch `.*?\nBEGIN` of the body alternation: occurrences of a
literal newline followed by case-insensitive `BEGIN`, tried in order, each
continued by the `END` search. -/
def nlBeginLoop : Str → Option Str
  | [] => none
  | '\n' :: v =>
    if ciStarts (str "BEGIN") v then
      match findEndGo (v.drop 5) with
      | some r => some r
      | none => nlBeginLoop v
    else nlBeginLoop v
  | _ :: t => nlBeginLoop t

/-- Alternation `(?:BEGIN|.*?\nBEGIN)` at the position after the greedy `\s+`
run, each branch continued by `.*?END\s*(?:GO|$)`. -/
def beginCandidates (t2 : Str) : Option Str :=
  match (if ciStarts (str "BEGIN") t2 then findEndGo (t2.drop 5) else none) with
  | some r => some r
  | none => nlBeginLoop t2

/-- Try `AS\s+(?:BEGIN|.*?\nBEGIN).*?END\s*(?:GO|$)` at this position. -/
def tryAsAt (u : Str) : Option Str :=
  if ciStarts (str "AS") u then
    let t := u.drop 2
    let run := t.takeWhile isPySpace
    if run.isEmpty then none else beginCandidates (t.drop run.length)
  else none

/-- Lazy `.*?AS...` (DOTALL): `AS` positions in order, each fully explored. -/
def bodyTail : Str → Option Str
  | [] => none
  | c :: t =>
    match tryAsAt (c :: t) with
    | some r => some r
    | none => bodyTail t

/-- Greedy name capture `([^\s(]+)` with backtracking: name lengths from the
maximal run down to one, each continued by the body search. -/
def nameLoop (t3 : Str) : Nat → Option (Str × Str)
  | 0 => none
  | nl + 1 =>
    match bodyTail (t3.drop (nl + 1)) with
    | some r => some (t3.take (nl + 1), r)
    | none => nameLoop t3 nl

/-- Full match attempt of the definition pattern
`(?i)((CREATE|ALTER)\s+(FUNCTION|PROCEDURE)\s+([^\s(]+).*?AS\s+(?:BEGIN|.*?\nBEGIN).*?END\s*(?:GO|$))`
at the head of `u`: returns action, kind, name and the remainder after the
match. -/
def matchDef (u : Str) : Option (Str × Str × Str × Str) :=
  match matchActionCI u with
  | none => none
  | some (act, t1) =>
    let run1 := t1.takeWhile isPySpace
    if run1.isEmpty then none
    else
      match matchKindCI (t1.drop run1.length) with
      | none => none
      | some (kind, t2) =>
        let run2 := t2.takeWhile isPySpace
        if run2.isEmpty then none
        else
          let t3 := t2.drop run2.length
          let nameRun := t3.takeWhile (fun c => !isPySpace c && c != '(')
          match nameLoop t3 nameRun.length with
          | some (nm, r) => some (act, kind, nm, r)
          | none => none

/-- `re.finditer` over the definition pattern: leftmost matches in order,
scanning resuming after each match end; `group(1).strip()` re-collapsed
becomes the body. -/
def extractDefsF : Nat → Str → List (Str × SqlObj)
  | 0, _ => []
  | _ + 1, [] => []
  | f + 1, c :: t =>
    match matchDef (c :: t) with
    | some (act, kind, nm, r) =>
      let bodyRaw := (c :: t).take ((c :: t).length - r.length)
      (kind, { name := nm, action := act, body := subBlankLines (pyStrip bodyRaw) })
        :: extractDefsF f r
    | none => extractDefsF f t

/-- Core of the drop pattern,
`(DROP (?:PROCEDURE|FUNCTION) \[dbo\]\.\[([^\]]+)\]\s*;\s*GO)` (CI):
returns `group(1)`, the name capture, and the remainder. -/
def matchDropCore (u : Str) : Option (Str × Str × Str) :=
  if ciStarts (str "DROP ") u then
    let t1 := u.drop 5
    let t2? : Option Str :=
      if ciStarts (str "PROCEDURE") t1 then some (t1.drop 9)
      else if ciStarts (str "FUNCTION") t1 then some (t1.drop 8)
      else none
    match t2? with
    | none => none
    | some t2 =>
      if ciStarts (str " [dbo].[") t2 then
        let t3 := t2.drop 8
        let nameRun := t3.takeWhile (fun c => c != ']')
        if nameRun.isEmpty then none
        else
          match (t3.drop nameRun.length : Str) with
          | ']' :: t4 =>
            match (t4.dropWhile isPySpace : Str) with
            | ';' :: t6 =>
              let t7 := t6.dropWhile isPySpace
              if ciStarts (str "GO") t7 then
                let r := t7.drop 2
                some (u.take (u.length - r.length), nameRun, r)
              else none
            | _ => none
          | _ => none
      else none
  else none

/-- Optional announcement prefix
`(?:PRINT N\'Dropping (?:Procedure|Function) \[dbo\]\.\[[^\]]+\]\.\.\.\'\s+GO\s+)?`
(CI): on success returns the position after the prefix. -/
def matchDropAnnounce (u : Str) : Option Str :=
  if ciStarts (str "PRINT N'Dropping ") u then
    let t1 := u.drop 17
    let t2? : Option Str :=
      if ciStarts (str "Procedure") t1 then some (t1.drop 9)
      else if ciStarts (str "Function") t1 then some (t1.drop 8)
      else none
    match t2? with
    | none => none
    | some t2 =>
      if ciStarts (str " [dbo].[") t2 then
        let t3 := t2.drop 8
        let nameRun := t3.takeWhile (fun c => c != ']')
        if nameRun.isEmpty then none
        else if ciStarts (str "]...'") (t3.drop nameRun.length) then
          let t4 := (t3.drop nameRun.length).drop 5
          let run1 := t4.takeWhile isPySpace
          if run1.isEmpty then none
          else if ciStarts (str "GO") (t4.drop run1.length) then
            let t5 := (t4.drop run1.length).drop 2
            let run2 := t5.takeWhile isPySpace
            if run2.isEmpty then none else some (t5.drop run2.length)
          else none
        else none
      else none
  else none

/-- Full drop-pattern attempt: the greedy optional announcement first, then
the bare drop core at the same position. -/
def matchDrop (u : Str) : Option (Str × Str × Str) :=
  match (match matchDropAnnounce u with
         | some t => matchDropCore t
         | none => none) with
  | some res => some res
  | none => matchDropCore u

/-- `re.finditer` over the drop pattern; the routed type comes from
`'PROCEDURE' in match.group(1).upper()` and the body is synthesized as
`DROP <TYPE> IF EXISTS [dbo].[<name>];`. -/
def dropScanF : Nat → Str → List DropObj
  | 0, _ => []
  | _ + 1, [] => []
  | f + 1, c :: t =>
    match matchDrop (c :: t) with
    | some (g1, nm, r) =>
      let ty := if containsSubstr (upperStr g1) (str "PROCEDURE") then str "procedure"
                else str "function"
      { type := ty, name := nm
      , body := str "DROP " ++ upperStr ty ++ str " IF EXISTS [dbo].[" ++ nm ++ str "];" }
        :: dropScanF f r
    | none => dropScanF f t

/-- Model of `extract_sql_objects`: both scans over the same content, with
definitions routed by `obj_type == 'function'`. -/
def extract_sql_objects (content : Str) : ExtractedObjects :=
  let defs := extractDefsF content.length content
  { functions := (defs.filter (fun p => p.1 == str "function")).map (fun p => p.2)
  , procedures := (defs.filter (fun p => !(p.1 == str "function"))).map (fun p => p.2)
  , drops := dropScanF content.length content }

/-! ## Stage 3: `generate_filtered_output` -/

/-- The per-section loop of `generate_filtered_output`: each body followed by
`"\nGO\n\n"`. -/
def sectionBodies : List Str → Str
  | [] => []
  | b :: bs => b ++ str "\nGO\n\n" ++ sectionBodies bs

/-- Model of `generate_filtered_output`: banner plus bodies for each
non-empty section, in the fixed order drops, functions, procedures; empty
sections contribute nothing. -/
def generate_filtered_output (e : ExtractedObjects) : Str :=
  (if e.drops.isEmpty then [] else
    str "-- DROP STATEMENTS --\n\n" ++ sectionBodies (e.drops.map DropObj.body)) ++
  (if e.functions.isEmpty then [] else
    str "-- FUNCTIONS --\n\n" ++ sectionBodies (e.functions.map SqlObj.body)) ++
  (if e.procedures.isEmpty then [] else
    str "-- PROCEDURES --\n\n" ++ sectionBodies (e.procedures.map SqlObj.body))

/-! ## Stage 4: `convert_sql_to_drop_create` -/

/-- Qualified-name capture
`(?P<name>(\[[^\]]+\]|\w+)(\.\[[^\]]+\]|\.\w+)?)`: a bracketed or word first
part, an optional dotted second part; returns the captured characters and
the remainder. -/
def matchQualName (t : Str) : Option (Str × Str) :=
  let part1? : Option (Str × Str) :=
    match t with
    | '[' :: t1 =>
      let run := t1.takeWhile (fun c => c != ']')
      if run.isEmpty then none
      else
        match (t1.drop run.length : Str) with
        | ']' :: t2 => some ('[' :: (run ++ [']']), t2)
        | _ => none
    | _ =>
      let run := t.takeWhile isWordChar
      if run.isEmpty then none else some (run, t.drop run.length)
  match part1? with
  | none => none
  | some (p1, t2) =>
    match t2 with
    | '.' :: t3 =>
      let part2? : Option (Str × Str) :=
        match t3 with
        | '[' :: t4 =>
          let run := t4.takeWhile (fun c => c != ']')
          if run.isEmpty then none
          else
            match (t4.drop run.length : Str) with
            | ']' :: t5 => some ('.' :: '[' :: (run ++ [']']), t5)
            | _ => none
        | _ =>
          let run := t3.takeWhile isWordChar
          if run.isEmpty then none else some ('.' :: run, t3.drop run.length)
      match part2? with
      | some (p2, t5) => some (p1 ++ p2, t5)
      | none => some (p1, t2)
    | _ => some (p1, t2)

/-- First `)` terminator for the lazy parameter-list body. -/
def findCloseParen : Str → Option Str
  | [] => none
  | ')' :: t => some t
  | _ :: t => findCloseParen t

/-- Optional parameter group `(\s*\(.*?\))?`: whitespace, `(`, lazy body up
to the first `)`; when no closing paren exists the option is not taken. -/
def matchParams (t : Str) : Option Str :=
  let run := t.takeWhile isPySpace
  match (t.drop run.length : Str) with
  | '(' :: t1 => findCloseParen t1
  | _ => none

/-- Header match for the rewriter patterns
`(?i)(?P<header>(ALTER|CREATE)\s+<KW>\s+(?P<name>...)(\s*\(.*?\))?)` with
`<KW>` either `PROCEDURE` or `FUNCTION`: returns `group(0)`, the name
capture and the remainder. -/
def matchHeader (kw : Str) (u : Str) : Option (Str × Str × Str) :=
  let act? : Option Str :=
    if ciStarts (str "ALTER") u then some (u.drop 5)
    else if ciStarts (str "CREATE") u then some (u.drop 6)
    else none
  match act? with
  | none => none
  | some t1 =>
    let run1 := t1.takeWhile isPySpace
    if run1.isEmpty then none
    else
      let t2 := t1.drop run1.length
      if ciStarts kw t2 then
        let t3 := t2.drop kw.length
        let run2 := t3.takeWhile isPySpace
        if run2.isEmpty then none
        else
          match matchQualName (t3.drop run2.length) with
          | none => none
          | some (nm, t5) =>
            let r := match matchParams t5 with
                     | some r' => r'
                     | none => t5
            some (u.take (u.length - r.length), nm, r)
      else none

/-- One `re.sub` pass of the rewriter (`replace_proc` / `replace_func`):
each header match is replaced by the conditional drop, a separator and
`group(0).replace('ALTER', 'CREATE')`; scanning resumes after the original
match. -/
def convertPassF (kw : Str) (dropKw : Str) : Nat → Str → Str
  | 0, s => s
  | _ + 1, [] => []
  | f + 1, c :: t =>
    match matchHeader kw (c :: t) with
    | some (hdr, nm, r) =>
      dropKw ++ nm ++ str "\nGO\n" ++ pyReplace hdr (str "ALTER") (str "CREATE")
        ++ convertPassF kw dropKw f r
    | none => c :: convertPassF kw dropKw f t

/-- Match `\bGO\s+GO\b` (CI) given whether the previous character is a word
character (for the leading boundary). -/
def matchGoGo (prevIsWord : Bool) (u : Str) : Option Str :=
  if prevIsWord then none
  else if ciStarts (str "GO") u then
    let t := u.drop 2
    let run := t.takeWhile isPySpace
    if run.isEmpty then none
    else
      let t2 := t.drop run.length
      if ciStarts (str "GO") t2 then
        match (t2.drop 2 : Str) with
        | [] => some []
        | c :: r => if isWordChar c then none else some (c :: r)
      else none
  else none

/-- Global substitution `re.sub(r'\bGO\s+GO\b', 'GO', content, flags=re.IGNORECASE)`,
tracking the previous original character for the word boundary. -/
def subGoGoF : Nat → Bool → Str → Str
  | 0, _, s => s
  | _ + 1, _, [] => []
  | f + 1, pw, c :: t =>
    match matchGoGo pw (c :: t) with
    | some r => str "GO" ++ subGoGoF f true r
    | none => c :: subGoGoF f (isWordChar c) t

/-- Global substitution `re.sub(r'\n{3,}', '\n\n', content)`. -/
def subManyNlF : Nat → Str → Str
  | 0, s => s
  | _ + 1, [] => []
  | f + 1, c :: t =>
    if c == '\n' then
      let run := t.takeWhile (fun x => x == '\n')
      if 2 ≤ run.length then str "\n\n" ++ subManyNlF f (t.drop run.length)
      else c :: subManyNlF f t
    else c :: subManyNlF f t

/-- Model of `convert_sql_to_drop_create`: procedure pass, function pass,
duplicate-`GO` collapse, blank-run collapse. -/
def convert_sql_to_drop_create (content : Str) : Str :=
  let c1 := convertPassF (str "PROCEDURE") (str "DROP PROCEDURE IF EXISTS ")
              content.length content
  let c2 := convertPassF (str "FUNCTION") (str "DROP FUNCTION IF EXISTS ")
              c1.length c1
  let c3 := subGoGoF c2.length false c2
  subManyNlF c3.length c3

/-! ## Stage 5: `add_print_statements` -/

/-- Python `readlines`: split into lines keeping each newline; a final
newline-less fragment is kept. -/
def splitLinesKeepF : Nat → Str → List Str
  | 0, s => if s.isEmpty then [] else [s]
  | _ + 1, [] => []
  | f + 1, c :: t =>
    let line := (c :: t).takeWhile (fun x => x != '\n')
    match ((c :: t).drop line.length : Str) with
    | '\n' :: rest => (line ++ ['\n']) :: splitLinesKeepF f rest
    | _ => [line]

/-- Attempt of `CREATE\s+(FUNCTION|PROCEDURE)\s+([^\s(]+)` (CI) at the head
of `u`: returns the upper-cased kind and the raw name capture. -/
def matchCreateLine (u : Str) : Option (Str × Str) :=
  if ciStarts (str "CREATE") u then
    let t1 := u.drop 6
    let run1 := t1.takeWhile isPySpace
    if run1.isEmpty then none
    else
      let t2 := t1.drop run1.length
      let kind? : Option (Str × Str) :=
        if ciStarts (str "FUNCTION") t2 then some (str "FUNCTION", t2.drop 8)
        else if ciStarts (str "PROCEDURE") t2 then some (str "PROCEDURE", t2.drop 9)
        else none
      match kind? with
      | none => none
      | some (k, t3) =>
        let run2 := t3.takeWhile isPySpace
        if run2.isEmpty then none
        else
          let nameRun := (t3.drop run2.length).takeWhile (fun c => !isPySpace c && c != '(')
          if nameRun.isEmpty then none else some (k, nameRun)
  else none

/-- `create_pattern.search(line)`: the pattern attempted at every position. -/
def searchCreate : Str → Option (Str × Str)
  | [] => none
  | c :: t =>
    match matchCreateLine (c :: t) with
    | some res => some res
    | none => searchCreate t

/-- The `line.strip().upper() == "GO"` test. -/
def isGoLine (l : Str) : Bool := upperStr (pyStrip l) == str "GO"

/-- The five appended probe lines (the f-strings of the source). -/
def probeBlock (objType objName : Str) : List Str :=
  [ str "IF OBJECT_ID('" ++ objName ++ str "') IS NOT NULL\n"
  , str "    PRINT '<<< CREATED " ++ objType ++ [' '] ++ objName ++ str " >>>'\n"
  , str "ELSE\n"
  , str "    PRINT '<<< FAILED CREATING " ++ objType ++ [' '] ++ objName ++ str " >>>'\n"
  , str "GO\n\n" ]

/-- Update of the `current_object` register on one line: a create-header
match overwrites it (`group(2).strip()`), otherwise it is kept. -/
def updateCur (cur : Option (Str × Str)) (l : Str) : Option (Str × Str) :=
  match searchCreate l with
  | some (k, nm) => some (k, pyStrip nm)
  | none => cur

/-- The line loop of `add_print_statements`: the running buffer and the
`current_object` register; on a `GO` line with a pending object the buffer
is flushed and the probe block appended, on a bare `GO` line the buffer is
flushed, and leftover buffered lines are flushed at end of input. -/
def processLines : Option (Str × Str) → List Str → List Str → List Str
  | _, buf, [] => buf
  | cur, buf, l :: ls =>
    if isGoLine l then
      match updateCur cur l with
      | some (ty, nm) => (buf ++ [l]) ++ probeBlock ty nm ++ processLines none [] ls
      | none => (buf ++ [l]) ++ processLines none [] ls
    else processLines (updateCur cur l) (buf ++ [l]) ls

/-- Concatenation of the output lines (`file.writelines`). -/
def joinLines : List Str → Str
  | [] => []
  | l :: ls => l ++ joinLines ls

/-- Model of `add_print_statements` as a text transformation (the source
reads `input_file`, applies this transformation, writes `output_file`). -/
def add_print_statements (content : Str) : Str :=
  joinLines (processLines none [] (splitLinesKeepF content.length content))

/-! ## The pipeline of `generate_sync_script` (steps 3 to 6) -/

/-- Steps 3 and 4: clean, extract, assemble. -/
def pipeline_assembled (raw : Str) : Str :=
  generate_filtered_output (extract_sql_objects (clean_sql_content raw))

/-- Step 5: the idempotency rewrite of the assembled script. -/
def pipeline_rewritten (raw : Str) : Str :=
  convert_sql_to_drop_create (pipeline_assembled raw)

/-- Step 6: the final instrumented artifact. -/
def pipeline_full (raw : Str) : Str :=
  add_print_statements (pipeline_rewritten raw)

/-! ## Statement vocabulary and concrete scenario inputs -/

/-- Output lines that announce a creation probe. -/
def probeCount (ls : List Str) : Nat :=
  ls.countP (fun l => (str "IF OBJECT_ID('").isPrefixOf l)

/-- Batch-terminator lines. -/
def goCount (ls : List Str) : Nat := ls.countP isGoLine

/-- Round-trip scenario input: one procedure definition batch. -/
def rtInput : Str :=
  str "CREATE PROCEDURE [dbo].[GetUsers] AS BEGIN SELECT 1 END\nGO\n"

/-- Two definition batches for the same qualified name with different bodies. -/
def dupInput : Str :=
  str "CREATE PROCEDURE [dbo].[GetUsers] AS BEGIN SELECT 1 END\nGO\nCREATE PROCEDURE [dbo].[GetUsers] AS BEGIN SELECT 2 END\nGO\n"

/-- A drop batch with its announcement print followed by a definition batch. -/
def mixedInput : Str :=
  str "PRINT N'Dropping Procedure [dbo].[OldProc]...'\nGO\nDROP PROCEDURE [dbo].[OldProc];\nGO\nCREATE PROCEDURE [dbo].[GetUsers] AS BEGIN SELECT 1 END\nGO\n"

/-- Drop scenario input: announcement print plus unconditional drop. -/
def dropInput : Str :=
  str "PRINT N'Dropping Procedure [dbo].[OldProc]...'\nGO\nDROP PROCEDURE [dbo].[OldProc];\nGO\n"

/-- Six batches interleaving the three kinds in scrambled textual order. -/
def scrambleInput : Str :=
  str "CREATE PROCEDURE [dbo].[P1] AS BEGIN SELECT 1 END\nGO\nDROP PROCEDURE [dbo].[D1];\nGO\nCREATE FUNCTION [dbo].[F1]() RETURNS INT AS BEGIN RETURN 1 END\nGO\nCREATE PROCEDURE [dbo].[P2] AS BEGIN SELECT 2 END\nGO\nDROP FUNCTION [dbo].[D2];\nGO\nCREATE FUNCTION [dbo].[F2]() RETURNS INT AS BEGIN RETURN 2 END\nGO\n"

/-- Noise-only input: two announcement prints with their separators. -/
def noiseInput : Str :=
  str "PRINT N'hello';\nGO\nPRINT N'world';\nGO\n"

/-- A single print batch whose string literal spells a definition span. -/
def evilPrintInput : Str :=
  str "PRINT N'CREATE PROCEDURE [dbo].[X] AS BEGIN SELECT 1 END GO'\nGO\n"

/-- Lower-case alter definition batch. -/
def lowerAlterInput : Str :=
  str "alter procedure [dbo].[p] as begin select 1 end\nGO\n"

/-- Upper-case alter definition batch. -/
def upperAlterInput : Str :=
  str "ALTER PROCEDURE [dbo].[GetUsers] AS BEGIN SELECT 1 END\nGO\n"

/-! ## General lemmas about the embedded operations -/

/-- Unfolding lemma for `containsSubstr` on a cons cell. -/
theorem containsSubstr_cons (c : Char) (t pat : Str) :
    containsSubstr (c :: t) pat = (pat.isPrefixOf (c :: t) || containsSubstr t pat) := rfl

/-- A list is a Boolean prefix of itself extended by anything. -/
theorem isPrefixOf_append_self : (p t : Str) → p.isPrefixOf (p ++ t) = true
  | [], _ => by simp [List.isPrefixOf]
  | a :: as, t => by simp [List.isPrefixOf, isPrefixOf_append_self as t]

/-- Infix is preserved by appending on the left. -/
theorem infix_append_left_of (c : Str) {a b : Str} (h : a <:+: b) : a <:+: c ++ b := by
  obtain ⟨s, t, hst⟩ := h
  exact ⟨c ++ s, t, by rw [← hst]; simp [List.append_assoc]⟩

/-- Infix is preserved by appending on the right. -/
theorem infix_append_right_of (c : Str) {a b : Str} (h : a <:+: b) : a <:+: b ++ c := by
  obtain ⟨s, t, hst⟩ := h
  exact ⟨s, t ++ c, by rw [← hst]; simp [List.append_assoc]⟩

/-- Every listed body is an infix of its section text. -/
theorem mem_infix_sectionBodies {b : Str} : ∀ {bs : List Str}, b ∈ bs → b <:+: sectionBodies bs := by
  intro bs h
  induction bs with
  | nil => cases h
  | cons x xs ih =>
    rcases List.mem_cons.mp h with h1 | h2
    · subst h1
      exact ⟨[], str "\nGO\n\n" ++ sectionBodies xs, by simp [sectionBodies, List.append_assoc]⟩
    · have := infix_append_left_of (x ++ str "\nGO\n\n") (ih h2)
      simpa [sectionBodies, List.append_assoc] using this

/-- Every extracted procedure body is an infix of the assembled output: the
assembler emits every occurrence and never deduplicates. -/
theorem proc_body_occurs (e : ExtractedObjects) (p : SqlObj) (hp : p ∈ e.procedures) :
    p.body <:+: generate_filtered_output e := by
  have hne : e.procedures.isEmpty = false := by
    cases hmem : e.procedures with
    | nil => rw [hmem] at hp; cases hp
    | cons a l => simp [hmem]
  have hbody : p.body ∈ e.procedures.map SqlObj.body := List.mem_map_of_mem _ hp
  have h1 : p.body <:+: sectionBodies (e.procedures.map SqlObj.body) :=
    mem_infix_sectionBodies hbody
  have h2 := infix_append_left_of (str "-- PROCEDURES --\n\n") h1
  unfold generate_filtered_output
  rw [hne]
  simp only [Bool.false_eq_true, if_false]
  exact infix_append_left_of _ h2

/-- The assembled output decomposes into its three sections in order:
drops text, then functions text, then procedures text. -/
theorem gfo_decomposition (e : ExtractedObjects) :
    generate_filtered_output e =
      generate_filtered_output { functions := [], procedures := [], drops := e.drops } ++
      generate_filtered_output { functions := e.functions, procedures := [], drops := [] } ++
      generate_filtered_output { functions := [], procedures := e.procedures, drops := [] } := by
  simp [generate_filtered_output]

/-- With all three sections empty the assembled output is empty: no banner
of an empty section is ever emitted. -/
theorem gfo_empty (e : ExtractedObjects) (h1 : e.drops = []) (h2 : e.functions = [])
    (h3 : e.procedures = []) : generate_filtered_output e = [] := by
  simp [generate_filtered_output, h1, h2, h3]

/-- Lines containing no batch terminator are flushed verbatim by the
instrumenter loop, with nothing appended. -/
theorem processLines_no_go : ∀ (lines : List Str) (cur : Option (Str × Str)) (buf : List Str),
    (∀ l ∈ lines, isGoLine l = false) → processLines cur buf lines = buf ++ lines := by
  intro lines
  induction lines with
  | nil => intro cur buf _; simp [processLines]
  | cons l ls ih =>
    intro cur buf h
    have hl : isGoLine l = false := h l (List.mem_cons_self _ _)
    have hls : ∀ x ∈ ls, isGoLine x = false := fun x hx => h x (List.mem_cons_of_mem _ hx)
    simp [processLines, hl, ih _ _ hls]

/-- A probe block contains exactly one probe line. -/
theorem probeCount_probeBlock (ty nm : Str) : probeCount (probeBlock ty nm) = 1 := by
  have h2 : (str "IF OBJECT_ID('").isPrefixOf
      (str "    PRINT '<<< CREATED " ++ (ty ++ ' ' :: (nm ++ str " >>>'\n"))) = false := rfl
  have h3 : (str "IF OBJECT_ID('").isPrefixOf (str "ELSE\n") = false := rfl
  have h4 : (str "IF OBJECT_ID('").isPrefixOf
      (str "    PRINT '<<< FAILED CREATING " ++ (ty ++ ' ' :: (nm ++ str " >>>'\n"))) = false := rfl
  have h5 : (str "IF OBJECT_ID('").isPrefixOf (str "GO\n\n") = false := rfl
  simp [probeCount, probeBlock, List.countP_cons, List.countP_nil, isPrefixOf_append_self,
    h2, h3, h4, h5, List.append_assoc]

/-- Each terminator line yields at most one probe block. -/
theorem processLines_probe_bound :
    ∀ (lines : List Str) (cur : Option (Str × Str)) (buf : List Str),
      probeCount (processLines cur buf lines) ≤ probeCount buf + probeCount lines + goCount lines := by
  intro lines
  induction lines with
  | nil => intro cur buf; simp [processLines, probeCount, goCount]
  | cons l ls ih =>
    intro cur buf
    by_cases hgo : isGoLine l = true
    · rcases hcur : updateCur cur l with _ | ⟨ty, nm⟩
      · have hrec := ih none []
        simp only [processLines, hgo, if_true, hcur, probeCount, goCount, List.countP_append,
          List.countP_cons, List.countP_nil] at hrec ⊢
        omega
      · have hrec := ih none []
        have hpb := probeCount_probeBlock ty nm
        simp only [probeCount] at hpb
        simp only [processLines, hgo, if_true, hcur, probeCount, goCount, List.countP_append,
          List.countP_cons, List.countP_nil, hpb] at hrec ⊢
        omega
    · have hgo' : isGoLine l = false := by simpa using hgo
      have hrec := ih (updateCur cur l) (buf ++ [l])
      simp only [processLines, hgo', if_false, probeCount, goCount, List.countP_append,
        List.countP_cons, List.countP_nil, Bool.false_eq_true] at hrec ⊢
      omega

/-- With no uppercase occurrence of the pattern, Python's `str.replace` is
the identity (any fuel). -/
theorem pyReplaceF_no_occurrence (pat rep : Str) :
    ∀ (f : Nat) (s : Str), containsSubstr s pat = false → pyReplaceF pat rep f s = s := by
  intro f
  induction f with
  | zero => intro s _; rfl
  | succ f ih =>
    intro s hs
    cases s with
    | nil => rfl
    | cons c t =>
      rw [containsSubstr_cons] at hs
      have h1 : pat.isPrefixOf (c :: t) = false := by
        cases hx : pat.isPrefixOf (c :: t)
        · rfl
        · rw [hx] at hs; simp at hs
      have h2 : containsSubstr t pat = false := by
        cases hx : containsSubstr t pat
        · rfl
        · rw [hx] at hs; simp at hs
      simp [pyReplaceF, h1, ih t h2]

/-- On a header starting with the literal `ALTER` whose remainder has no
uppercase `ALTER`, the replacement changes exactly the leading keyword. -/
theorem pyReplace_alter_header (s : Str) (h : containsSubstr s (str "ALTER") = false) :
    pyReplace (str "ALTER" ++ s) (str "ALTER") (str "CREATE") = str "CREATE" ++ s := by
  have hpre : (str "ALTER").isPrefixOf ('A' :: 'L' :: 'T' :: 'E' :: 'R' :: s) = true :=
    isPrefixOf_append_self (str "ALTER") s
  show pyReplaceF (str "ALTER") (str "CREATE") (s.length + 4 + 1)
      ('A' :: 'L' :: 'T' :: 'E' :: 'R' :: s) = str "CREATE" ++ s
  simp only [pyReplaceF, hpre]
  simp only [show (str "ALTER").isEmpty = false from rfl, Bool.not_false, Bool.and_true,
    if_true]
  exact congrArg (fun t => str "CREATE" ++ t)
    (pyReplaceF_no_occurrence (str "ALTER") (str "CREATE") (s.length + 4) s h)

/-! ## Claims -/

/-- C1 (counterexample): on an input with two definition batches for the same
qualified name `[dbo].[GetUsers]` (hence trivially the same normalized key),
the classifier extracts both occurrences and the assembled output contains
two definitions for that name, not exactly one; no deduplication happens. -/
theorem C1_dedup_counterexample :
    (extract_sql_objects (clean_sql_content dupInput)).procedures.map SqlObj.name
      = [str "[dbo].[GetUsers]", str "[dbo].[GetUsers]"] ∧
    countSubstr (pipeline_assembled dupInput) (str "CREATE PROCEDURE [dbo].[GetUsers]") = 2 ∧
    ¬ countSubstr (pipeline_assembled dupInput) (str "CREATE PROCEDURE [dbo].[GetUsers]") = 1 := by
  refine ⟨by decide, by decide, by decide⟩

/-- C1 (amended): the assembler performs no deduplication by normalized key;
every extracted occurrence's body appears in the assembled output, and on the
duplicated input both definitions appear, in input order, the last-occurring
one last. -/
theorem C1_no_dedup_amended :
    (∀ (e : ExtractedObjects) (p : SqlObj), p ∈ e.procedures →
        p.body <:+: generate_filtered_output e) ∧
    countSubstr (pipeline_assembled dupInput) (str "CREATE PROCEDURE [dbo].[GetUsers]") = 2 ∧
    containsInOrder (pipeline_assembled dupInput)
      [str "CREATE PROCEDURE [dbo].[GetUsers] AS BEGIN SELECT 1 END",
       str "CREATE PROCEDURE [dbo].[GetUsers] AS BEGIN SELECT 2 END"] = true :=
  ⟨proc_body_occurs, by decide, by decide⟩

/-- C1 (witness): the first extracted occurrence of the duplicated input is a
member of the procedures section and its body occurs in the assembled
output. -/
theorem C1_no_dedup_amended_witness :
    (({ name := str "[dbo].[GetUsers]", action := str "create",
        body := str "CREATE PROCEDURE [dbo].[GetUsers] AS BEGIN SELECT 1 END\nGO" } : SqlObj)
      ∈ (extract_sql_objects (clean_sql_content dupInput)).procedures) ∧
    (str "CREATE PROCEDURE [dbo].[GetUsers] AS BEGIN SELECT 1 END\nGO")
      <:+: generate_filtered_output (extract_sql_objects (clean_sql_content dupInput)) :=
  ⟨by decide,
   C1_no_dedup_amended.1 (extract_sql_objects (clean_sql_content dupInput))
     { name := str "[dbo].[GetUsers]", action := str "create",
       body := str "CREATE PROCEDURE [dbo].[GetUsers] AS BEGIN SELECT 1 END\nGO" }
     (by decide)⟩

/-- C2: the full pipeline on the round-trip input produces exactly the
expected artifact, containing in order the conditional drop, a terminator,
the create statement, a terminator, the existence probe with its success
marker, and a final terminator. -/
theorem C2_roundtrip_scenario :
    pipeline_full rtInput
      = str "-- PROCEDURES --\n\nDROP PROCEDURE IF EXISTS [dbo].[GetUsers]\nGO\nCREATE PROCEDURE [dbo].[GetUsers] AS BEGIN SELECT 1 END\nGO\nIF OBJECT_ID('[dbo].[GetUsers]') IS NOT NULL\n    PRINT '<<< CREATED PROCEDURE [dbo].[GetUsers] >>>'\nELSE\n    PRINT '<<< FAILED CREATING PROCEDURE [dbo].[GetUsers] >>>'\nGO\n\n\n" ∧
    containsInOrder (pipeline_full rtInput)
      [str "DROP PROCEDURE IF EXISTS [dbo].[GetUsers]", str "GO",
       str "CREATE PROCEDURE [dbo].[GetUsers] AS BEGIN SELECT 1 END", str "GO",
       str "IF OBJECT_ID('[dbo].[GetUsers]') IS NOT NULL",
       str "<<< CREATED PROCEDURE [dbo].[GetUsers] >>>", str "GO"] = true := by
  refine ⟨by decide, by decide⟩

/-- C3 (counterexample): a second pass is not behaviorally equivalent to a
single pass: the drop object `[dbo].[OldProc]` appears in the single-pass
output but nowhere in the output of the pipeline re-run on the rewriter's
output, because the rewritten conditional drop no longer matches the drop
classifier. -/
theorem C3_second_pass_counterexample :
    countSubstr (pipeline_full mixedInput) (str "[dbo].[OldProc]") = 1 ∧
    countSubstr (pipeline_full (pipeline_rewritten mixedInput)) (str "[dbo].[OldProc]") = 0 := by
  refine ⟨by decide, by decide⟩

/-- C3 (amended): re-running the pipeline on the rewriter output preserves
each function/procedure exactly once in drop-then-create form in its section,
but the drops section is lost. -/
theorem C3_second_pass_amended :
    pipeline_rewritten (pipeline_rewritten mixedInput)
      = str "-- PROCEDURES --\n\nDROP PROCEDURE IF EXISTS [dbo].[GetUsers]\nGO\nCREATE PROCEDURE [dbo].[GetUsers] AS BEGIN SELECT 1 END\nGO\n\n" ∧
    countSubstr (pipeline_full (pipeline_rewritten mixedInput))
      (str "CREATE PROCEDURE [dbo].[GetUsers]") = 1 ∧
    containsInOrder (pipeline_full (pipeline_rewritten mixedInput))
      [str "-- PROCEDURES --", str "DROP PROCEDURE IF EXISTS [dbo].[GetUsers]", str "GO",
       str "CREATE PROCEDURE [dbo].[GetUsers] AS BEGIN SELECT 1 END", str "GO"] = true ∧
    countSubstr (pipeline_full (pipeline_rewritten mixedInput)) (str "OldProc") = 0 := by
  refine ⟨by decide, by decide, by decide, by decide⟩

/-- C4 (counterexample): for the header `ALTER PROCEDURE [dbo].[XALTERY]` the
rewriter's drop names `[dbo].[XALTERY]` but the following create names
`[dbo].[XCREATEY]`: the case-sensitive replace rewrites the uppercase
`ALTER` inside the name as well, so the two names are not
character-identical. -/
theorem C4_name_preservation_counterexample :
    convert_sql_to_drop_create
        (str "ALTER PROCEDURE [dbo].[XALTERY] AS BEGIN SELECT 1 END\nGO\n")
      = str "DROP PROCEDURE IF EXISTS [dbo].[XALTERY]\nGO\nCREATE PROCEDURE [dbo].[XCREATEY] AS BEGIN SELECT 1 END\nGO\n" ∧
    containsSubstr
        (convert_sql_to_drop_create
          (str "ALTER PROCEDURE [dbo].[XALTERY] AS BEGIN SELECT 1 END\nGO\n"))
        (str "CREATE PROCEDURE [dbo].[XALTERY]") = false := by
  refine ⟨by decide, by decide⟩

/-- C4 (amended): the rewrite is a literal case-sensitive replace of `ALTER`
by `CREATE` over the whole matched header.  When the rest of the header
contains no uppercase `ALTER`, exactly the leading keyword changes (so drop
and create names agree); an uppercase-clean header is rewritten faithfully,
and a lowercase action word is left untouched. -/
theorem C4_name_preservation_amended :
    (∀ s : Str, containsSubstr s (str "ALTER") = false →
        pyReplace (str "ALTER" ++ s) (str "ALTER") (str "CREATE") = str "CREATE" ++ s) ∧
    convert_sql_to_drop_create upperAlterInput
      = str "DROP PROCEDURE IF EXISTS [dbo].[GetUsers]\nGO\nCREATE PROCEDURE [dbo].[GetUsers] AS BEGIN SELECT 1 END\nGO\n" ∧
    convert_sql_to_drop_create lowerAlterInput
      = str "DROP PROCEDURE IF EXISTS [dbo].[p]\nGO\nalter procedure [dbo].[p] as begin select 1 end\nGO\n" :=
  ⟨pyReplace_alter_header, by decide, by decide⟩

/-- C4 (witness): the replacement lemma applied to the concrete header tail
of the round-trip procedure. -/
theorem C4_name_preservation_amended_witness :
    containsSubstr (str " PROCEDURE [dbo].[GetUsers]") (str "ALTER") = false ∧
    pyReplace (str "ALTER" ++ str " PROCEDURE [dbo].[GetUsers]") (str "ALTER") (str "CREATE")
      = str "CREATE" ++ str " PROCEDURE [dbo].[GetUsers]" :=
  ⟨by decide, C4_name_preservation_amended.1 _ (by decide)⟩

/-- C5 (counterexample): a lowercase `alter procedure` definition survives
the whole pipeline unchanged — an ALTER definition statement does appear in
the final output, and no Create form is produced for it. -/
theorem C5_alter_case_counterexample :
    containsSubstr (pipeline_full lowerAlterInput) (str "alter procedure [dbo].[p]") = true ∧
    containsSubstr (pipeline_full lowerAlterInput) (str "CREATE") = false := by
  refine ⟨by decide, by decide⟩

/-- C5 (amended): when the action word is written in uppercase, the object
is rewritten to exactly one Create statement and no ALTER remains in the
output; the guarantee does not extend to lowercase action words. -/
theorem C5_alter_case_amended :
    countSubstr (pipeline_full upperAlterInput) (str "ALTER") = 0 ∧
    countSubstr (pipeline_full upperAlterInput) (str "CREATE PROCEDURE [dbo].[GetUsers]") = 1 := by
  refine ⟨by decide, by decide⟩

/-- C6: the drop scenario yields exactly the drops section with the
conditional form `DROP PROCEDURE IF EXISTS [dbo].[OldProc];` and `GO`; the
announcement print is gone and the original unconditional drop is never
emitted verbatim. -/
theorem C6_drop_scenario :
    pipeline_full dropInput
      = str "-- DROP STATEMENTS --\n\nDROP PROCEDURE IF EXISTS [dbo].[OldProc];\nGO\n\n" ∧
    containsSubstr (pipeline_full dropInput) (str "Dropping") = false ∧
    containsSubstr (pipeline_full dropInput) (str "DROP PROCEDURE [dbo].[OldProc]") = false := by
  refine ⟨by decide, by decide, by decide⟩

/-- C7: the assembled output always decomposes as drops text, then functions
text, then procedures text; and on a six-batch scrambled input the banners
appear in that fixed order with each section's members in first-encountered
input order. -/
theorem C7_section_order :
    (∀ e : ExtractedObjects, generate_filtered_output e =
        generate_filtered_output { functions := [], procedures := [], drops := e.drops } ++
        generate_filtered_output { functions := e.functions, procedures := [], drops := [] } ++
        generate_filtered_output { functions := [], procedures := e.procedures, drops := [] }) ∧
    containsInOrder (pipeline_assembled scrambleInput)
      [str "-- DROP STATEMENTS --", str "[dbo].[D1]", str "[dbo].[D2]",
       str "-- FUNCTIONS --", str "[dbo].[F1]", str "[dbo].[F2]",
       str "-- PROCEDURES --", str "[dbo].[P1]", str "[dbo].[P2]"] = true :=
  ⟨gfo_decomposition, by decide⟩

/-- C8 (counterexample): an input consisting of a single PRINT statement and
a GO separator, with no definition or drop statement, still produces a
non-empty artifact with a section banner, because the classifier also
matches a definition-shaped span inside the print's string literal. -/
theorem C8_noise_only_counterexample :
    pipeline_full evilPrintInput
      = str "-- PROCEDURES --\n\nDROP PROCEDURE IF EXISTS [dbo].[X]\nGO\nCREATE PROCEDURE [dbo].[X] AS BEGIN SELECT 1 END GO\n\n" ∧
    containsSubstr (pipeline_full evilPrintInput) (str "-- PROCEDURES --") = true := by
  refine ⟨by decide, by decide⟩

/-- C8 (amended): when nothing is classified every section is omitted with
its banner and the artifact is empty, and a noise-only script whose print
literals spell no definition or drop pattern produces the empty artifact. -/
theorem C8_noise_only_amended :
    (∀ e : ExtractedObjects, e.drops = [] → e.functions = [] → e.procedures = [] →
        generate_filtered_output e = []) ∧
    pipeline_assembled noiseInput = [] ∧
    pipeline_full noiseInput = [] :=
  ⟨gfo_empty, by decide, by decide⟩

/-- C8 (witness): the empty extraction yields the empty artifact. -/
theorem C8_noise_only_amended_witness :
    generate_filtered_output { functions := [], procedures := [], drops := [] } = [] :=
  C8_noise_only_amended.1 { functions := [], procedures := [], drops := [] } rfl rfl rfl

/-- C9: if the remaining input lines contain no standalone GO line, the
instrumenter flushes the buffered lines verbatim at end of input and appends
no existence probe, whatever the pending object register holds. -/
theorem C9_unterminated_batch :
    ∀ (cur : Option (Str × Str)) (buf : List Str) (lines : List Str),
      (∀ l ∈ lines, isGoLine l = false) →
      processLines cur buf lines = buf ++ lines :=
  fun cur buf lines h => processLines_no_go lines cur buf h

/-- C9 (witness): a create header with no following GO line passes through
unchanged, with no probe. -/
theorem C9_unterminated_batch_witness :
    processLines none [] [str "CREATE PROCEDURE [dbo].[X] AS BEGIN SELECT 1 END\n"]
      = [str "CREATE PROCEDURE [dbo].[X] AS BEGIN SELECT 1 END\n"] :=
  C9_unterminated_batch none [] _ (by decide)

/-- C10: the instrumenter emits at most one probe block per GO line (the
probe-line count of the output is bounded by the input's probe lines plus
its GO lines), and on a batch with two create headers before one GO the
single probe names only the most recent header, `PROCEDURE [dbo].[P]`. -/
theorem C10_single_probe_per_go :
    (∀ (cur : Option (Str × Str)) (buf lines : List Str),
        probeCount (processLines cur buf lines)
          ≤ probeCount buf + probeCount lines + goCount lines) ∧
    add_print_statements
        (str "CREATE FUNCTION [dbo].[F]() RETURNS INT AS BEGIN RETURN 1 END\nCREATE PROCEDURE [dbo].[P] AS BEGIN SELECT 1 END\nGO\n")
      = str "CREATE FUNCTION [dbo].[F]() RETURNS INT AS BEGIN RETURN 1 END\nCREATE PROCEDURE [dbo].[P] AS BEGIN SELECT 1 END\nGO\nIF OBJECT_ID('[dbo].[P]') IS NOT NULL\n    PRINT '<<< CREATED PROCEDURE [dbo].[P] >>>'\nELSE\n    PRINT '<<< FAILED CREATING PROCEDURE [dbo].[P] >>>'\nGO\n\n" ∧
    countSubstr
        (add_print_statements
          (str "CREATE FUNCTION [dbo].[F]() RETURNS INT AS BEGIN RETURN 1 END\nCREATE PROCEDURE [dbo].[P] AS BEGIN SELECT 1 END\nGO\n"))
        (str "IF OBJECT_ID") = 1 ∧
    containsSubstr
        (add_print_statements
          (str "CREATE FUNCTION [dbo].[F]() RETURNS INT AS BEGIN RETURN 1 END\nCREATE PROCEDURE [dbo].[P] AS BEGIN SELECT 1 END\nGO\n"))
        (str "OBJECT_ID('[dbo].[F]')") = false :=
  ⟨fun cur buf lines => processLines_probe_bound lines cur buf, by decide, by decide, by decide⟩

end VS2022
